import Mathlib

/-
Verification development for the LRS (linear referencing) resolution core of
the Live_LRS_Mapper repository (src/app.py).  The batch resolver
`process_batch` (src/app.py lines 262-382) is embedded shallowly below:
pandas cell values become `PyVal`, geometries become a planar polyline model
`Geom` whose vertices lie on one axis (a metrically faithful special case of
the projected CRS used by the app), and the per-record control flow of the
Python function is translated branch by branch.  Measures and distances are
modelled as rationals; the hard coded unit factor 1609.34 and the tolerances
0.1 and 50 from the source are kept verbatim.
-/

/-- Cell values as they occur in the tabular data handed to `process_batch`:
a finite numeric value, a non numeric text value, or a missing value
(pandas NA).  Numeric text cells and float NaN payloads are outside the
model: upstream UI code (src/app.py line 430) drops rows with missing
begin measures before the resolver runs. -/
inductive PyVal where
  | num (q : ℚ)
  | str (s : String)
  | na
deriving DecidableEq

/-- Python `str(...)` rendering of a cell value, used by the `astype(str)`
coercions at src/app.py lines 268-269 and by `str(row[rid_col])` at line 276.
Integral numbers render as Python integers do; the rendering of non integral
numbers is a fixed stand in (no theorem depends on it). -/
def pyStr : PyVal → String
  | PyVal.num q => if q.den = 1 then toString q.num else toString q
  | PyVal.str s => s
  | PyVal.na => "nan"

/-- Python `str(...)` rendering of an already parsed float, used by the
f-string error messages of `process_batch`.  Integral floats render with a
trailing `.0` as Python does. -/
def pyFloatStr (q : ℚ) : String :=
  if q.den = 1 then toString q.num ++ ".0" else toString q

/-- Python `float(cell)`: succeeds exactly on numeric cells in the model. -/
def floatOf : PyVal → Option ℚ
  | PyVal.num q => some q
  | PyVal.str _ => none
  | PyVal.na => none

/-- pandas `pd.isna` on a cell value. -/
def isnaV : PyVal → Bool
  | PyVal.na => true
  | _ => false

/-- Planar geometry in the calculation CRS, restricted to one coordinate
axis so that polyline lengths are rational: `point x` is a point at
coordinate `x`, `line pts` a LineString through the listed coordinates, and
`multi parts` a MultiLineString. -/
inductive Geom where
  | point (x : ℚ)
  | line (pts : List ℚ)
  | multi (parts : List (List ℚ))
deriving DecidableEq

/-- Length of the polyline through the listed coordinates (sum of segment
lengths). -/
def pathLength : List ℚ → ℚ
  | [] => 0
  | [_] => 0
  | a :: b :: t => |b - a| + pathLength (b :: t)

/-- shapely `geometry.length`. -/
def lengthG : Geom → ℚ
  | Geom.point _ => 0
  | Geom.line pts => pathLength pts
  | Geom.multi parts => (parts.map pathLength).sum

/-- shapely `geometry.is_empty`. -/
def isEmptyG : Geom → Bool
  | Geom.point _ => false
  | Geom.line pts => pts.isEmpty
  | Geom.multi parts => parts.isEmpty

/-- Membership of `geometry.geom_type` in `['LineString', 'MultiLineString']`
as tested at src/app.py line 342. -/
def isLineTypeG : Geom → Bool
  | Geom.point _ => false
  | Geom.line _ => true
  | Geom.multi _ => true

/-- Point on the segment from `a` to `b` at distance `d` from `a`
(for `0 ≤ d ≤ |b - a|`). -/
def interpSeg (a b d : ℚ) : ℚ :=
  if |b - a| = 0 then a else a + (b - a) * d / |b - a|

/-- Point on the polyline at distance `d` from its start; clamps beyond the
far end to the last vertex, as shapely `interpolate` does for the
nonnegative distances the resolver passes in. -/
def interpPts : List ℚ → ℚ → ℚ
  | [], _ => 0
  | [a], _ => a
  | a :: b :: t, d =>
    if d ≤ |b - a| then interpSeg a b d
    else interpPts (b :: t) (d - |b - a|)

/-- shapely `interpolate` on a MultiLineString: the distance accumulates
across the parts in order. -/
def interpParts : List (List ℚ) → ℚ → ℚ
  | [], _ => 0
  | [p], d => interpPts p d
  | p :: ps, d =>
    if d ≤ pathLength p then interpPts p d else interpParts ps (d - pathLength p)

/-- shapely `geometry.interpolate(d)` returning the coordinate of the
interpolated point. -/
def interpolateG : Geom → ℚ → ℚ
  | Geom.point x, _ => x
  | Geom.line pts, d => interpPts pts d
  | Geom.multi parts, d => interpParts parts d

/-- Tail of the polyline from distance `s` onward (`0 ≤ s`). -/
def cutFrom : List ℚ → ℚ → List ℚ
  | [], _ => []
  | [a], _ => [a]
  | a :: b :: t, s =>
    if s ≤ |b - a| then interpSeg a b s :: b :: t
    else cutFrom (b :: t) (s - |b - a|)

/-- Head of the polyline up to distance `e` (`0 ≤ e`). -/
def cutTo : List ℚ → ℚ → List ℚ
  | [], _ => []
  | [a], _ => [a]
  | a :: b :: t, e =>
    if e ≤ |b - a| then [a, interpSeg a b e]
    else a :: cutTo (b :: t) (e - |b - a|)

/-- Vertices of the sub polyline between distances `s ≤ e`. -/
def subPts (pts : List ℚ) (s e : ℚ) : List ℚ :=
  cutTo (cutFrom pts s) (e - s)

/-- shapely `shapely.ops.substring(geom, a, b)` as called at src/app.py
line 341: defined on LineStrings only (`none` models the exception the
source swallows with `except: pass` for other geometry types); distances
are clamped to `[0, length]`; equal clamped distances collapse the result
to a Point. -/
def substringG : Geom → ℚ → ℚ → Option Geom
  | Geom.line pts, a, b =>
    let L := pathLength pts
    let s := max 0 (min a L)
    let e := max 0 (min b L)
    if s = e then some (Geom.point (interpPts pts s))
    else if s < e then some (Geom.line (subPts pts s e))
    else some (Geom.line (List.reverse (subPts pts e s)))
  | _, _, _ => none

/-- Check that consecutive parts chain head to tail. -/
def chainOk : List (List ℚ) → Bool
  | [] => false
  | [_] => true
  | p :: q :: rest =>
    if p.getLastD 0 = q.headD 0 then chainOk (q :: rest) else false

/-- Concatenation of chained parts. -/
def joinParts : List (List ℚ) → List ℚ
  | [] => []
  | [p] => p
  | p :: rest => p ++ joinParts rest

/-- shapely `linemerge` on the parts of a MultiLineString, modelled for
parts that already chain in listed order (the only behaviour any claim
depends on is that the result is again a LineString or MultiLineString and
that merging preserves total length). -/
def linemergeG (parts : List (List ℚ)) : Geom :=
  if chainOk parts then Geom.line (joinParts parts) else Geom.multi parts

/-- Candidate normalization at src/app.py lines 317-320: a MultiLineString
is merged; `linemerge` always yields a LineString or MultiLineString, so
the merged geometry is always adopted. -/
def normalizeGeom : Geom → Geom
  | Geom.multi parts => linemergeG parts
  | g => g

/-- One feature of the route network: the value of the detected route id
column plus the feature geometry. -/
structure RouteFeature where
  rid : PyVal
  geom : Geom
deriving DecidableEq

/-- One row of the uploaded table, restricted to the three mapped columns
(route id, begin measure, end measure).  When the end measure column is
`(None)` the `em` field is never consulted. -/
structure InputRecord where
  rid : PyVal
  bm : PyVal
  em : PyVal
deriving DecidableEq

/-- Official measure extent of a route from the reference sheet. -/
structure RefExtent where
  min : ℚ
  max : ℚ
deriving DecidableEq

/-- Feature type selected in the UI (`Point`, `Line` or `Both`). -/
inductive Mode where
  | point
  | line
  | both
deriving DecidableEq

/-- Result of resolving one record: a point success, a line success, or a
failure with the raised error message. -/
inductive Outcome where
  | pt (g : Geom)
  | ln (g : Geom)
  | err (m : String)
deriving DecidableEq

/-- Hard coded miles to meters conversion factor (src/app.py line 272). -/
def unit_factor : ℚ := 1609.34

/-- Offset corrected projection distance computed at src/app.py lines
322-323: `relative = max(0.0, measure - route_min_mp)` scaled by
`unit_factor`.  The same formula produces `em_meters` at lines 333-334. -/
def bmMetersOf (route_min_mp m_val : ℚ) : ℚ :=
  max 0 (m_val - route_min_mp) * unit_factor

/-- Python `str.strip()`: drop whitespace from both ends. -/
def pyStrip (s : String) : String :=
  String.mk (((s.data.dropWhile Char.isWhitespace).reverse.dropWhile
    Char.isWhitespace).reverse)

/-- Route id of a record as the resolver sees it: `str(row[rid_col]).strip()`
(src/app.py line 276). -/
def ridOf (r : InputRecord) : String := pyStrip (pyStr r.rid)

/-- Lookup in the reference dictionary (`rid in ref_lookup`); the empty list
models both an absent (`None`) and an empty dictionary. -/
def lookupRef : List (String × RefExtent) → String → Option RefExtent
  | [], _ => none
  | (k, v) :: rest, rid => if k = rid then some v else lookupRef rest rid

/-- Error message of src/app.py line 284. -/
def invalidBeginFormatMsg (v : PyVal) : String :=
  "Invalid Begin Measure format: " ++ pyStr v

/-- Error message of src/app.py line 287. -/
def beginBelowMsg (bm_val : ℚ) (rid : String) (mn : ℚ) : String :=
  "Begin MP (" ++ pyFloatStr bm_val ++ ") is below Route " ++ rid
    ++ " Minimum (" ++ pyFloatStr mn ++ ")"

/-- Error message of src/app.py line 289. -/
def beginAboveMsg (bm_val : ℚ) (rid : String) (mx : ℚ) : String :=
  "Begin MP (" ++ pyFloatStr bm_val ++ ") exceeds Route " ++ rid
    ++ " Maximum (" ++ pyFloatStr mx ++ ")"

/-- Error message of src/app.py line 293. -/
def invalidEndFormatMsg (v : PyVal) : String :=
  "Invalid End Measure format: " ++ pyStr v

/-- Error message of src/app.py line 297. -/
def endAboveMsg (em_val : ℚ) (rid : String) (mx : ℚ) : String :=
  "End MP (" ++ pyFloatStr em_val ++ ") exceeds Route " ++ rid
    ++ " Maximum (" ++ pyFloatStr mx ++ ")"

/-- Error message of src/app.py line 301. -/
def routeNotFoundMsg (rid : String) : String :=
  "Route ID \x27" ++ rid ++ "\x27 Not Found in GIS Network"

/-- Error message of src/app.py line 304. -/
def invalidBeginMsg (v : PyVal) : String :=
  "Invalid Begin Measure: " ++ pyStr v

/-- Error message of src/app.py line 331; `row.get(em_col)` renders as
`None` when the end measure column is `(None)`. -/
def invalidEndMsg (emCol : Bool) (v : PyVal) : String :=
  "Invalid End Measure: " ++ (if emCol then pyStr v else "None")

/-- Error message of src/app.py line 337. -/
def beginEqEndMsg : String := "Begin MP == End MP (Use Point mode)"

/-- Error message of src/app.py line 338. -/
def endLtBeginMsg (em_val bm_val : ℚ) : String :=
  "End MP (" ++ pyFloatStr em_val ++ ") < Begin MP (" ++ pyFloatStr bm_val ++ ")"

/-- Error message of src/app.py line 367. -/
def outOfRangeMsg : String := "Measure out of range of all found route segments."

/-- Error message of src/app.py line 369. -/
def gapMsg : String :=
  "Could not generate geometry. Segment likely falls in a gap or outside GIS limits."

/-- Begin measure extent validation of src/app.py lines 286-289. -/
def beginCheck (limits : RefExtent) (rid : String) (bm_val : ℚ) : Option String :=
  if bm_val < limits.min then some (beginBelowMsg bm_val rid limits.min)
  else if bm_val > limits.max then some (beginAboveMsg bm_val rid limits.max)
  else none

/-- End measure extent validation with 0.1 tolerance, src/app.py
lines 295-297. -/
def endCheck (limits : RefExtent) (rid : String) (em_val : ℚ) : Option String :=
  if em_val > limits.max then
    (if em_val > limits.max + 0.1 then some (endAboveMsg em_val rid limits.max)
     else none)
  else none

/-- Reference extent validation block of src/app.py lines 278-297, returning
the `route_min_mp` offset on success; the offset stays `0.0` when no extent
is known for the route id. -/
def extentStep (ref : List (String × RefExtent)) (rid : String) (mode : Mode)
    (emCol : Bool) (r : InputRecord) : Except String ℚ :=
  match lookupRef ref rid with
  | none => Except.ok 0
  | some limits =>
    match floatOf r.bm with
    | none => Except.error (invalidBeginFormatMsg r.bm)
    | some bm_val =>
      match beginCheck limits rid bm_val with
      | some m => Except.error m
      | none =>
        if mode ≠ Mode.point ∧ emCol = true ∧ isnaV r.em = false then
          match floatOf r.em with
          | none => Except.error (invalidEndFormatMsg r.em)
          | some em_val =>
            match endCheck limits rid em_val with
            | some m => Except.error m
            | none => Except.ok limits.min
        else Except.ok limits.min

/-- Candidate features for a route id: the filter
`routes[routes[gis_rid] == rid]` of src/app.py line 299 over a network whose
id column has already been coerced to strings. -/
def matchesOf (routes2 : List RouteFeature) (rid : String) : List RouteFeature :=
  routes2.filter (fun f => decide (f.rid = PyVal.str rid))

/-- Output type decision of src/app.py lines 306-310. -/
def isPointOf (mode : Mode) (emCol : Bool) (em : PyVal) : Bool :=
  match mode with
  | Mode.point => true
  | Mode.line => false
  | Mode.both => !emCol || isnaV em

/-- Result of inspecting one candidate segment: adopt a geometry and stop,
skip to the next candidate, or raise an error aborting the record. -/
inductive StepRes where
  | take (g : Geom)
  | skip
  | raised (m : String)
deriving DecidableEq

/-- Direct sub line extraction with the acceptance conditions of src/app.py
lines 341-344: non empty, of line type, and longer than the 0.1 tolerance. -/
def directSub (geom : Geom) (bm_meters em_meters : ℚ) : Option Geom :=
  match substringG geom bm_meters em_meters with
  | some cl =>
    if isEmptyG cl = false ∧ isLineTypeG cl = true ∧ lengthG cl > 0.1
    then some cl else none
  | none => none

/-- Evenly spaced sample distances, `np.linspace(a, b, n)` for `n ≥ 2`. -/
def linspaceQ (a b : ℚ) (n : ℕ) : List ℚ :=
  (List.range n).map (fun i => a + (b - a) * (i : ℚ) / ((n - 1 : ℕ) : ℚ))

/-- Resampling reconstruction fallback of src/app.py lines 347-359: only
attempted while `bm_meters < geom.length + 50`; both distances are clamped
to the segment, the clamped span is sampled every 10 distance units (at
least two samples), and the rebuilt line is adopted unless its endpoints
coincide within the 0.1 tolerance. -/
def resampleStep (geom : Geom) (bm_meters em_meters : ℚ) : StepRes :=
  if bm_meters < lengthG geom + 50 then
    let actual_end_m := min em_meters (lengthG geom)
    let actual_start_m := min bm_meters (lengthG geom)
    if actual_end_m > actual_start_m then
      let segment_len := actual_end_m - actual_start_m
      let num_points := max 2 (segment_len / 10).floor.toNat
      let distances := linspaceQ actual_start_m actual_end_m num_points
      let points := distances.map (interpolateG geom)
      if |points.headD 0 - points.getLastD 0| > 0.1
      then StepRes.take (Geom.line points)
      else StepRes.skip
    else StepRes.skip
  else StepRes.skip

/-- Body of the candidate loop of src/app.py lines 314-359 for one feature:
normalize the geometry, compute the offset corrected distances, and either
interpolate a point, raise a degenerate line error, extract a sub line, or
fall through to the resampling fallback. -/
def stepCand (isPt : Bool) (bm_val route_min_mp : ℚ) (emCol : Bool)
    (r : InputRecord) (f : RouteFeature) : StepRes :=
  let geom := normalizeGeom f.geom
  let bm_meters := bmMetersOf route_min_mp bm_val
  if isPt then
    if bm_meters ≤ lengthG geom
    then StepRes.take (Geom.point (interpolateG geom bm_meters))
    else StepRes.skip
  else
    match (if emCol then floatOf r.em else none) with
    | none => StepRes.raised (invalidEndMsg emCol r.em)
    | some em_val =>
      let em_meters := bmMetersOf route_min_mp em_val
      if bm_meters ≥ em_meters then
        (if bm_meters = em_meters then StepRes.raised beginEqEndMsg
         else StepRes.raised (endLtBeginMsg em_val bm_val))
      else
        match directSub geom bm_meters em_meters with
        | some cl => StepRes.take cl
        | none => resampleStep geom bm_meters em_meters

/-- Terminal state of the candidate loop: a geometry was adopted, an error
was raised, or all candidates were exhausted without a geometry. -/
inductive LoopRes where
  | found (g : Geom)
  | raised (m : String)
  | exhausted
deriving DecidableEq

/-- Candidate loop of src/app.py lines 314-359: first adopted geometry wins,
a raise aborts, otherwise the candidates are exhausted. -/
def candLoop (isPt : Bool) (bm_val route_min_mp : ℚ) (emCol : Bool)
    (r : InputRecord) : List RouteFeature → LoopRes
  | [] => LoopRes.exhausted
  | f :: fs =>
    match stepCand isPt bm_val route_min_mp emCol r f with
    | StepRes.take g => LoopRes.found g
    | StepRes.raised m => LoopRes.raised m
    | StepRes.skip => candLoop isPt bm_val route_min_mp emCol r fs

/-- Placeholder feature for the (never relevant) empty candidate list case
of `matches.iloc[-1]`: the code path using it is guarded by the non empty
check of src/app.py line 300. -/
def defaultFeature : RouteFeature := { rid := PyVal.str "", geom := Geom.line [] }

/-- Candidate loop plus the fallback classification of src/app.py lines
312-369: a found geometry is classified by `is_point`; an exhausted point
record falls back to the last candidate clamped to its endpoint when the
uncorrected offset distance exceeds that length, and fails otherwise; an
exhausted line record fails with the gap message. -/
def resolveLoopPhase (mode : Mode) (emCol : Bool) (r : InputRecord)
    (route_min_mp bm_val : ℚ) (matchesL : List RouteFeature) : Outcome :=
  match candLoop (isPointOf mode emCol r.em) bm_val route_min_mp emCol r matchesL with
  | LoopRes.raised m => Outcome.err m
  | LoopRes.found g =>
    if isPointOf mode emCol r.em then Outcome.pt g else Outcome.ln g
  | LoopRes.exhausted =>
    if isPointOf mode emCol r.em then
      if (bm_val - route_min_mp) * unit_factor
          > lengthG (matchesL.getLastD defaultFeature).geom
      then Outcome.pt (Geom.point (interpolateG (matchesL.getLastD defaultFeature).geom
              (lengthG (matchesL.getLastD defaultFeature).geom)))
      else Outcome.err outOfRangeMsg
    else Outcome.err gapMsg

/-- Route lookup and begin measure parse of src/app.py lines 299-304,
followed by the candidate loop. -/
def resolveAfterExtent (mode : Mode) (emCol : Bool) (r : InputRecord)
    (route_min_mp : ℚ) (rid : String) (matchesL : List RouteFeature) : Outcome :=
  if matchesL = [] then Outcome.err (routeNotFoundMsg rid)
  else
    match floatOf r.bm with
    | none => Outcome.err (invalidBeginMsg r.bm)
    | some bm_val => resolveLoopPhase mode emCol r route_min_mp bm_val matchesL

/-- Resolution of one record against a network whose id column has already
been coerced to strings: the body of the per record `try` block of
src/app.py lines 275-376, with every `raise` surfacing as `Outcome.err`
via the record boundary handler of lines 378-380. -/
def resolveRecord (routes2 : List RouteFeature) (ref : List (String × RefExtent))
    (mode : Mode) (emCol : Bool) (r : InputRecord) : Outcome :=
  match extentStep ref (ridOf r) mode emCol r with
  | Except.error m => Outcome.err m
  | Except.ok route_min_mp =>
    resolveAfterExtent mode emCol r route_min_mp (ridOf r)
      (matchesOf routes2 (ridOf r))

/-- In place `astype(str)` coercion of the network id column
(src/app.py line 268). -/
def astypeStrFeat (f : RouteFeature) : RouteFeature :=
  { rid := PyVal.str (pyStr f.rid), geom := f.geom }

/-- In place `astype(str)` coercion of the record id column
(src/app.py line 269). -/
def astypeStrRec (r : InputRecord) : InputRecord :=
  { rid := PyVal.str (pyStr r.rid), bm := r.bm, em := r.em }

/-- Accumulating loop over the batch rows (src/app.py lines 274-380):
each record appends its result to exactly one of the three collections. -/
def batchLoop (routes2 : List RouteFeature) (ref : List (String × RefExtent))
    (mode : Mode) (emCol : Bool) :
    List InputRecord → List (InputRecord × Geom) → List (InputRecord × Geom)
    → List (InputRecord × String)
    → List (InputRecord × Geom) × List (InputRecord × Geom) × List (InputRecord × String)
  | [], ps, ls, es => (ps, ls, es)
  | r :: rest, ps, ls, es =>
    match resolveRecord routes2 ref mode emCol r with
    | Outcome.pt g => batchLoop routes2 ref mode emCol rest (ps ++ [(r, g)]) ls es
    | Outcome.ln g => batchLoop routes2 ref mode emCol rest ps (ls ++ [(r, g)]) es
    | Outcome.err m => batchLoop routes2 ref mode emCol rest ps ls (es ++ [(r, m)])

/-- Output of `process_batch`: the two success collections, the failure
collection, and the network as it is left after the call (the source
mutates its `routes` argument in place at src/app.py line 268, so the post
state of the network is part of the observable behaviour). -/
structure BatchOut where
  pts : List (InputRecord × Geom)
  lns : List (InputRecord × Geom)
  errs : List (InputRecord × String)
  routesOut : List RouteFeature
deriving DecidableEq

/-- `process_batch` of src/app.py lines 262-382: coerce the id columns of
the network and the batch to strings, then resolve each row independently,
partitioning the rows into point successes, line successes and failures. -/
def process_batch (df_batch : List InputRecord) (routes : List RouteFeature)
    (mode : Mode) (emCol : Bool) (ref : List (String × RefExtent)) : BatchOut :=
  let routes2 := routes.map astypeStrFeat
  let df2 := df_batch.map astypeStrRec
  let t := batchLoop routes2 ref mode emCol df2 [] [] []
  { pts := t.1, lns := t.2.1, errs := t.2.2, routesOut := routes2 }

/-- Contribution of a single record to the point success collection. -/
def ptContribution (routes2 : List RouteFeature) (ref : List (String × RefExtent))
    (mode : Mode) (emCol : Bool) (r : InputRecord) : List (InputRecord × Geom) :=
  match resolveRecord routes2 ref mode emCol r with
  | Outcome.pt g => [(r, g)]
  | _ => []

/-- Contribution of a single record to the line success collection. -/
def lnContribution (routes2 : List RouteFeature) (ref : List (String × RefExtent))
    (mode : Mode) (emCol : Bool) (r : InputRecord) : List (InputRecord × Geom) :=
  match resolveRecord routes2 ref mode emCol r with
  | Outcome.ln g => [(r, g)]
  | _ => []

/-- Contribution of a single record to the failure collection. -/
def errContribution (routes2 : List RouteFeature) (ref : List (String × RefExtent))
    (mode : Mode) (emCol : Bool) (r : InputRecord) : List (InputRecord × String) :=
  match resolveRecord routes2 ref mode emCol r with
  | Outcome.err m => [(r, m)]
  | _ => []

/-- Polyline lengths are nonnegative. -/
theorem pathLength_nonneg (pts : List ℚ) : 0 ≤ pathLength pts := by
  induction pts with
  | nil => simp [pathLength]
  | cons a t ih =>
    cases t with
    | nil => simp [pathLength]
    | cons b t2 =>
      simp only [pathLength]
      exact add_nonneg (abs_nonneg _) ih

/-- Geometry lengths are nonnegative. -/
theorem lengthG_nonneg (g : Geom) : 0 ≤ lengthG g := by
  cases g with
  | point x => simp [lengthG]
  | line pts => exact pathLength_nonneg pts
  | multi parts =>
    refine List.sum_nonneg ?_
    intro x hx
    obtain ⟨p, _, rfl⟩ := List.mem_map.mp hx
    exact pathLength_nonneg p

/-- A candidate loop in which every candidate is skipped exhausts. -/
theorem candLoop_of_all_skip (isPt : Bool) (bm_val route_min_mp : ℚ) (emCol : Bool)
    (r : InputRecord) (fs : List RouteFeature)
    (h : ∀ f ∈ fs, stepCand isPt bm_val route_min_mp emCol r f = StepRes.skip) :
    candLoop isPt bm_val route_min_mp emCol r fs = LoopRes.exhausted := by
  induction fs with
  | nil => rfl
  | cons f fs ih =>
    have hf := h f (by simp)
    simp only [candLoop, hf]
    exact ih (fun x hx => h x (by simp [hx]))

/-- Evaluation of the batch loop: each accumulator receives the
concatenated per record contributions. -/
theorem batchLoop_eq (routes2 : List RouteFeature) (ref : List (String × RefExtent))
    (mode : Mode) (emCol : Bool) (df : List InputRecord)
    (ps ls : List (InputRecord × Geom)) (es : List (InputRecord × String)) :
    batchLoop routes2 ref mode emCol df ps ls es =
      (ps ++ df.flatMap (ptContribution routes2 ref mode emCol),
       ls ++ df.flatMap (lnContribution routes2 ref mode emCol),
       es ++ df.flatMap (errContribution routes2 ref mode emCol)) := by
  induction df generalizing ps ls es with
  | nil => simp [batchLoop]
  | cons r rest ih =>
    cases h : resolveRecord routes2 ref mode emCol r with
    | pt g =>
      simp [batchLoop, h, ih, ptContribution, lnContribution, errContribution,
        List.flatMap_cons]
    | ln g =>
      simp [batchLoop, h, ih, ptContribution, lnContribution, errContribution,
        List.flatMap_cons]
    | err m =>
      simp [batchLoop, h, ih, ptContribution, lnContribution, errContribution,
        List.flatMap_cons]

/-- Exactly one of the three contributions of a record is a singleton. -/
theorem contribution_lengths (routes2 : List RouteFeature)
    (ref : List (String × RefExtent)) (mode : Mode) (emCol : Bool)
    (r : InputRecord) :
    (ptContribution routes2 ref mode emCol r).length
      + (lnContribution routes2 ref mode emCol r).length
      + (errContribution routes2 ref mode emCol r).length = 1 := by
  unfold ptContribution lnContribution errContribution
  cases resolveRecord routes2 ref mode emCol r <;> simp

/-- Summed lengths of the per record contributions over a batch. -/
theorem bind_contribution_lengths (routes2 : List RouteFeature)
    (ref : List (String × RefExtent)) (mode : Mode) (emCol : Bool)
    (df : List InputRecord) :
    (df.flatMap (ptContribution routes2 ref mode emCol)).length
      + (df.flatMap (lnContribution routes2 ref mode emCol)).length
      + (df.flatMap (errContribution routes2 ref mode emCol)).length = df.length := by
  induction df with
  | nil => simp
  | cons r rest ih =>
    have h1 := contribution_lengths routes2 ref mode emCol r
    simp only [List.flatMap_cons, List.length_append, List.length_cons]
    omega

/-- Coercing the id column preserves every feature geometry. -/
theorem map_astype_geom (routes : List RouteFeature) :
    (routes.map astypeStrFeat).map RouteFeature.geom
      = routes.map RouteFeature.geom := by
  induction routes with
  | nil => rfl
  | cons f fs ih => simp [astypeStrFeat, ih]

/-- Coercing the id column is the identity when every id is already a
string. -/
theorem map_astype_id (routes : List RouteFeature)
    (h : ∀ f ∈ routes, ∃ s, f.rid = PyVal.str s) :
    routes.map astypeStrFeat = routes := by
  induction routes with
  | nil => rfl
  | cons f fs ih =>
    obtain ⟨s, hs⟩ := h f (List.mem_cons_self f fs)
    have ht := ih (fun x hx => h x (List.mem_cons_of_mem f hx))
    cases f with
    | mk rid geom =>
      simp only at hs
      subst hs
      simp [astypeStrFeat, pyStr, ht]

/-- Claim C7: batch processing partitions its input: every record lands in
exactly one of the three output collections, so the output sizes sum to the
input size, and processing distributes over concatenation of batches, so a
failing record never prevents the remaining records from being processed. -/
theorem claim7_batch_partition (df d1 d2 : List InputRecord)
    (routes : List RouteFeature) (mode : Mode) (emCol : Bool)
    (ref : List (String × RefExtent)) :
    ((process_batch df routes mode emCol ref).pts.length
      + (process_batch df routes mode emCol ref).lns.length
      + (process_batch df routes mode emCol ref).errs.length = df.length)
    ∧ (process_batch (d1 ++ d2) routes mode emCol ref).pts
        = (process_batch d1 routes mode emCol ref).pts
          ++ (process_batch d2 routes mode emCol ref).pts
    ∧ (process_batch (d1 ++ d2) routes mode emCol ref).lns
        = (process_batch d1 routes mode emCol ref).lns
          ++ (process_batch d2 routes mode emCol ref).lns
    ∧ (process_batch (d1 ++ d2) routes mode emCol ref).errs
        = (process_batch d1 routes mode emCol ref).errs
          ++ (process_batch d2 routes mode emCol ref).errs := by
  refine ⟨?_, ?_, ?_, ?_⟩
  · simp only [process_batch, batchLoop_eq, List.nil_append]
    rw [bind_contribution_lengths]
    simp
  all_goals simp [process_batch, batchLoop_eq, List.flatMap_append]

/-- Claim C9: per record determinism and independence: the contribution of
a record to each output collection of `process_batch` is a function of the
record and the network, extent, column and mode snapshot alone, independent
of its position in the batch and of the surrounding records. -/
theorem claim9_per_record_independence (df1 df2 : List InputRecord)
    (r : InputRecord) (routes : List RouteFeature) (mode : Mode) (emCol : Bool)
    (ref : List (String × RefExtent)) :
    (process_batch (df1 ++ r :: df2) routes mode emCol ref).pts
      = (process_batch df1 routes mode emCol ref).pts
        ++ ptContribution (routes.map astypeStrFeat) ref mode emCol (astypeStrRec r)
        ++ (process_batch df2 routes mode emCol ref).pts
    ∧ (process_batch (df1 ++ r :: df2) routes mode emCol ref).lns
      = (process_batch df1 routes mode emCol ref).lns
        ++ lnContribution (routes.map astypeStrFeat) ref mode emCol (astypeStrRec r)
        ++ (process_batch df2 routes mode emCol ref).lns
    ∧ (process_batch (df1 ++ r :: df2) routes mode emCol ref).errs
      = (process_batch df1 routes mode emCol ref).errs
        ++ errContribution (routes.map astypeStrFeat) ref mode emCol (astypeStrRec r)
        ++ (process_batch df2 routes mode emCol ref).errs := by
  refine ⟨?_, ?_, ?_⟩ <;>
    simp [process_batch, batchLoop_eq, List.flatMap_append, List.flatMap_cons,
      List.append_assoc]

/-- Claim C10 (amended): after `process_batch` the extent mapping and every
feature geometry are unchanged, and the network equals its input state with
the route id column coerced to strings; the network is therefore unchanged
exactly when its id values were already strings. -/
theorem claim10_network_after_batch (df : List InputRecord)
    (routes : List RouteFeature) (mode : Mode) (emCol : Bool)
    (ref : List (String × RefExtent)) :
    (process_batch df routes mode emCol ref).routesOut = routes.map astypeStrFeat
    ∧ (process_batch df routes mode emCol ref).routesOut.map RouteFeature.geom
        = routes.map RouteFeature.geom
    ∧ ((∀ f ∈ routes, ∃ s, f.rid = PyVal.str s) →
        (process_batch df routes mode emCol ref).routesOut = routes) := by
  refine ⟨rfl, ?_, ?_⟩
  · simpa [process_batch] using map_astype_geom routes
  · intro h
    simpa [process_batch] using map_astype_id routes h

/-- Claim C10 counterexample: a network whose route id column holds the
numeric value 70 is not left unchanged by `process_batch`: the id is coerced
to the string value in place. -/
theorem claim10_counterexample :
    (process_batch [] [⟨PyVal.num 70, Geom.line [0, 100]⟩] Mode.point false
        []).routesOut
      ≠ [⟨PyVal.num 70, Geom.line [0, 100]⟩] := by decide

/-- Claim C10 witness: on a network whose id values are already strings the
amended statement applies and the network is unchanged. -/
theorem claim10_witness :
    (process_batch [] [⟨PyVal.str "070A", Geom.line [0, 100]⟩] Mode.point false
        []).routesOut
      = [⟨PyVal.str "070A", Geom.line [0, 100]⟩] :=
  (claim10_network_after_batch [] [⟨PyVal.str "070A", Geom.line [0, 100]⟩]
      Mode.point false []).2.2
    (by intro f hf; simp at hf; exact ⟨"070A", by simp [hf]⟩)

/-- Reduction of `resolveRecord` when extent validation succeeds. -/
theorem resolveRecord_ok (routes2 : List RouteFeature)
    (ref : List (String × RefExtent)) (mode : Mode) (emCol : Bool)
    (r : InputRecord) (m : ℚ)
    (hE : extentStep ref (ridOf r) mode emCol r = Except.ok m) :
    resolveRecord routes2 ref mode emCol r
      = resolveAfterExtent mode emCol r m (ridOf r) (matchesOf routes2 (ridOf r)) := by
  simp [resolveRecord, hE]

/-- Reduction of `resolveRecord` when extent validation raises. -/
theorem resolveRecord_error (routes2 : List RouteFeature)
    (ref : List (String × RefExtent)) (mode : Mode) (emCol : Bool)
    (r : InputRecord) (m : String)
    (hE : extentStep ref (ridOf r) mode emCol r = Except.error m) :
    resolveRecord routes2 ref mode emCol r = Outcome.err m := by
  simp [resolveRecord, hE]

/-- Claim C1: for a record with a known extent of minimum `m` and a parsed
begin measure `b ≥ m`, the projection distance is `max(0, b - m)`, which
equals `(b - m) * unit_factor` and is never negative; concretely, with
extent min 10 a point request for begin measure 12 interpolates at distance
`(12 - 10) * unit_factor`, which differs from `12 * unit_factor`. -/
theorem claim1_offset_correction :
    (∀ m b : ℚ, m ≤ b → bmMetersOf m b = (b - m) * unit_factor)
    ∧ (∀ m b : ℚ, 0 ≤ bmMetersOf m b)
    ∧ resolveRecord [⟨PyVal.str "FI70", Geom.line [0, 10000]⟩]
        [("FI70", ⟨10, 50⟩)] Mode.point false
        ⟨PyVal.str "FI70", PyVal.num 12, PyVal.na⟩
      = Outcome.pt (Geom.point (interpolateG (Geom.line [0, 10000])
          ((12 - 10) * unit_factor)))
    ∧ interpolateG (Geom.line [0, 10000]) ((12 - 10) * unit_factor)
      ≠ interpolateG (Geom.line [0, 10000]) (12 * unit_factor) := by
  refine ⟨?_, ?_, ?_, ?_⟩
  · intro m b h
    unfold bmMetersOf
    rw [max_eq_right (by linarith)]
  · intro m b
    unfold bmMetersOf
    apply mul_nonneg (le_max_left 0 _)
    norm_num [unit_factor]
  · have hr : ridOf ⟨PyVal.str "FI70", PyVal.num 12, PyVal.na⟩ = "FI70" := by decide
    norm_num [resolveRecord, hr, extentStep, lookupRef, floatOf, isnaV,
      beginCheck, endCheck, resolveAfterExtent, matchesOf, resolveLoopPhase,
      candLoop, stepCand, isPointOf, bmMetersOf, unit_factor, normalizeGeom,
      lengthG, pathLength, interpolateG, interpPts, interpSeg, List.filter]
  · norm_num [interpolateG, interpPts, interpSeg, unit_factor]

/-- Claim C1 witness: the general conjuncts applied at extent minimum 10
and begin measure 12. -/
theorem claim1_witness :
    bmMetersOf 10 12 = (12 - 10) * unit_factor ∧ 0 ≤ bmMetersOf 10 12 :=
  ⟨claim1_offset_correction.1 10 12 (by norm_num),
   claim1_offset_correction.2.1 10 12⟩

/-- Claim C3: with a known extent, a begin measure below the minimum fails
naming the minimum and its value, one above the maximum fails naming the
maximum and its value, and one exactly equal to either bound passes the
extent check. -/
theorem claim3_extent_rejection (routes2 : List RouteFeature)
    (ref : List (String × RefExtent)) (mode : Mode) (emCol : Bool)
    (r : InputRecord) (limits : RefExtent) (b : ℚ)
    (hlook : lookupRef ref (ridOf r) = some limits)
    (hbm : floatOf r.bm = some b) :
    (b < limits.min →
      resolveRecord routes2 ref mode emCol r
        = Outcome.err (beginBelowMsg b (ridOf r) limits.min))
    ∧ (¬ b < limits.min → b > limits.max →
      resolveRecord routes2 ref mode emCol r
        = Outcome.err (beginAboveMsg b (ridOf r) limits.max))
    ∧ (limits.min ≤ limits.max → (b = limits.min ∨ b = limits.max) →
      beginCheck limits (ridOf r) b = none) := by
  refine ⟨?_, ?_, ?_⟩
  · intro h
    apply resolveRecord_error
    simp [extentStep, hlook, hbm, beginCheck, h]
  · intro h1 h2
    apply resolveRecord_error
    simp [extentStep, hlook, hbm, beginCheck, h1, h2]
  · intro hmm hor
    rcases hor with rfl | rfl
    · simp [beginCheck, lt_irrefl, not_lt.mpr hmm]
    · simp [beginCheck, not_lt.mpr hmm, lt_irrefl]

/-- Claim C3 witness: begin measure 2 below minimum 5 is rejected with the
minimum named; begin measure exactly 5 passes the extent check. -/
theorem claim3_witness :
    resolveRecord [] [("X", ⟨5, 10⟩)] Mode.point false
        ⟨PyVal.str "X", PyVal.num 2, PyVal.na⟩
      = Outcome.err (beginBelowMsg 2 "X" 5)
    ∧ beginCheck ⟨5, 10⟩ "X" 5 = none := by
  constructor
  · exact (claim3_extent_rejection [] [("X", ⟨5, 10⟩)] Mode.point false
      ⟨PyVal.str "X", PyVal.num 2, PyVal.na⟩ ⟨5, 10⟩ 2 (by decide) (by decide)).1
      (by norm_num)
  · exact (claim3_extent_rejection [] [("X", ⟨5, 10⟩)] Mode.point false
      ⟨PyVal.str "X", PyVal.num 5, PyVal.na⟩ ⟨5, 10⟩ 5 (by decide) (by decide)).2.2
      (by norm_num) (Or.inl rfl)

/-- Claim C4 (amended): extent validation precedes the route lookup; a
record whose route id matches no network feature fails with the route not
found reason provided its extent validation passes. -/
theorem claim4_not_found_after_extent (routes2 : List RouteFeature)
    (ref : List (String × RefExtent)) (mode : Mode) (emCol : Bool)
    (r : InputRecord) (m : ℚ)
    (hE : extentStep ref (ridOf r) mode emCol r = Except.ok m)
    (hempty : matchesOf routes2 (ridOf r) = []) :
    resolveRecord routes2 ref mode emCol r
      = Outcome.err (routeNotFoundMsg (ridOf r)) := by
  rw [resolveRecord_ok routes2 ref mode emCol r m hE, hempty]
  simp [resolveAfterExtent]

/-- Claim C4 counterexample: a record whose route id has no network match
but violates a known extent fails with the extent error, not with the route
not found reason, because extent validation runs first. -/
theorem claim4_counterexample :
    (process_batch [⟨PyVal.str "UNKNOWN", PyVal.num 2, PyVal.na⟩]
        [⟨PyVal.str "A", Geom.line [0, 100]⟩] Mode.point false
        [("UNKNOWN", ⟨5, 10⟩)]).errs
      = [(⟨PyVal.str "UNKNOWN", PyVal.num 2, PyVal.na⟩,
          beginBelowMsg 2 "UNKNOWN" 5)]
    ∧ matchesOf [⟨PyVal.str "A", Geom.line [0, 100]⟩] "UNKNOWN" = []
    ∧ beginBelowMsg 2 "UNKNOWN" 5 ≠ routeNotFoundMsg "UNKNOWN" := by decide

/-- Claim C4 witness: a record with no network match whose extent
validation passes (no extent known) fails with the route not found
reason. -/
theorem claim4_witness :
    resolveRecord [⟨PyVal.str "A", Geom.line [0, 100]⟩] [] Mode.point false
        ⟨PyVal.str "UNKNOWN", PyVal.num 1, PyVal.na⟩
      = Outcome.err (routeNotFoundMsg "UNKNOWN") :=
  claim4_not_found_after_extent _ _ _ _ _ 0 rfl (by decide)

/-- Claim C8: with a known extent and a present end measure in a mode that
requires one, an end measure above max + 0.1 fails naming the maximum,
while one at most max + 0.1 passes the end extent check. -/
theorem claim8_end_tolerance (routes2 : List RouteFeature)
    (ref : List (String × RefExtent)) (mode : Mode) (emCol : Bool)
    (r : InputRecord) (limits : RefExtent) (b e : ℚ)
    (hlook : lookupRef ref (ridOf r) = some limits)
    (hbm : floatOf r.bm = some b)
    (hb1 : ¬ b < limits.min) (hb2 : ¬ b > limits.max)
    (hmode : mode ≠ Mode.point) (hem : emCol = true)
    (hev : r.em = PyVal.num e) :
    (e > limits.max + 0.1 →
      resolveRecord routes2 ref mode emCol r
        = Outcome.err (endAboveMsg e (ridOf r) limits.max))
    ∧ (e ≤ limits.max + 0.1 → endCheck limits (ridOf r) e = none) := by
  constructor
  · intro h
    have h2 : e > limits.max := by
      have h01 : (0 : ℚ) < 0.1 := by norm_num
      linarith
    apply resolveRecord_error
    simp only [extentStep, hlook, hbm]
    simp only [beginCheck, if_neg hb1, if_neg hb2]
    rw [if_pos ⟨hmode, hem, by rw [hev]; rfl⟩]
    simp only [hev, floatOf]
    simp only [endCheck, if_pos h2, if_pos h]
  · intro h
    by_cases hgt : e > limits.max
    · simp [endCheck, hgt, not_lt.mpr h]
    · simp [endCheck, hgt]

/-- Claim C8 witness: with extent max 10, an end measure of 10.2 is
rejected naming the maximum, while an end measure of 10.1 passes the end
extent check. -/
theorem claim8_witness :
    resolveRecord [⟨PyVal.str "A", Geom.line [0, 100000]⟩] [("A", ⟨0, 10⟩)]
        Mode.line true ⟨PyVal.str "A", PyVal.num 1, PyVal.num (102/10)⟩
      = Outcome.err (endAboveMsg (102/10) "A" 10)
    ∧ endCheck ⟨0, 10⟩ "A" (101/10) = none := by
  constructor
  · exact (claim8_end_tolerance [⟨PyVal.str "A", Geom.line [0, 100000]⟩]
      [("A", ⟨0, 10⟩)] Mode.line true
      ⟨PyVal.str "A", PyVal.num 1, PyVal.num (102/10)⟩ ⟨0, 10⟩ 1 (102/10)
      (by decide) (by decide) (by norm_num) (by norm_num) (by decide) rfl rfl).1
      (by norm_num)
  · exact (claim8_end_tolerance [⟨PyVal.str "A", Geom.line [0, 100000]⟩]
      [("A", ⟨0, 10⟩)] Mode.line true
      ⟨PyVal.str "A", PyVal.num 1, PyVal.num (101/10)⟩ ⟨0, 10⟩ 1 (101/10)
      (by decide) (by decide) (by norm_num) (by norm_num) (by decide) rfl rfl).2
      (by norm_num)

/-- Claim C2 (amended): the degenerate line checks compare the offset
corrected, unit scaled distances of the two measures, raising the point
mode message when the two distances are equal and the end less than begin
message, reporting the raw values, when the begin distance exceeds the end
distance. -/
theorem claim2_degenerate_checks (routes2 : List RouteFeature)
    (ref : List (String × RefExtent)) (mode : Mode) (emCol : Bool)
    (r : InputRecord) (m b e : ℚ)
    (hE : extentStep ref (ridOf r) mode emCol r = Except.ok m)
    (hne : matchesOf routes2 (ridOf r) ≠ [])
    (hbm : floatOf r.bm = some b)
    (hpt : isPointOf mode emCol r.em = false)
    (hem : emCol = true) (hev : r.em = PyVal.num e) :
    (bmMetersOf m b = bmMetersOf m e →
      resolveRecord routes2 ref mode emCol r = Outcome.err beginEqEndMsg)
    ∧ (bmMetersOf m b > bmMetersOf m e →
      resolveRecord routes2 ref mode emCol r
        = Outcome.err (endLtBeginMsg e b)) := by
  obtain ⟨f, fs, hm⟩ : ∃ f fs, matchesOf routes2 (ridOf r) = f :: fs := by
    rcases hq : matchesOf routes2 (ridOf r) with _ | ⟨f, fs⟩
    · exact absurd hq hne
    · exact ⟨f, fs, rfl⟩
  have hpt' : isPointOf mode true (PyVal.num e) = false := by
    rw [← hem, ← hev]; exact hpt
  constructor
  · intro heq
    rw [resolveRecord_ok routes2 ref mode emCol r m hE]
    simp only [resolveAfterExtent, if_neg hne, hbm]
    simp [resolveLoopPhase, hm, candLoop, stepCand, hpt', hem, hev, floatOf, heq]
  · intro hgt
    have hge : bmMetersOf m e ≤ bmMetersOf m b := le_of_lt hgt
    have hne' : ¬ bmMetersOf m b = bmMetersOf m e := ne_of_gt hgt
    rw [resolveRecord_ok routes2 ref mode emCol r m hE]
    simp only [resolveAfterExtent, if_neg hne, hbm]
    simp [resolveLoopPhase, hm, candLoop, stepCand, hpt', hem, hev, floatOf,
      ge_iff_le, hge, hne']

/-- Claim C2 counterexample: with no extent known, begin measure -1 and end
measure -2 both clamp to offset corrected distance zero, so a record whose
begin measure is strictly greater than its end measure fails with the
Begin MP == End MP message rather than an End less than Begin message. -/
theorem claim2_counterexample :
    resolveRecord [⟨PyVal.str "A", Geom.line [0, 1000]⟩] [] Mode.line true
        ⟨PyVal.str "A", PyVal.num (-1), PyVal.num (-2)⟩
      = Outcome.err beginEqEndMsg
    ∧ ((-1 : ℚ) > (-2 : ℚ))
    ∧ beginEqEndMsg ≠ endLtBeginMsg (-2) (-1) := by
  refine ⟨?_, by norm_num, by decide⟩
  have hr : ridOf ⟨PyVal.str "A", PyVal.num (-1), PyVal.num (-2)⟩ = "A" := by
    decide
  norm_num [resolveRecord, hr, extentStep, lookupRef, floatOf, isnaV,
    beginCheck, endCheck, resolveAfterExtent, matchesOf, resolveLoopPhase,
    candLoop, stepCand, isPointOf, bmMetersOf, unit_factor, List.filter]

/-- Claim C2 witness: when the offset corrected distances are equal the
point mode message is raised, and when the begin distance exceeds the end
distance the end less than begin message reports the raw values. -/
theorem claim2_witness :
    resolveRecord [⟨PyVal.str "A", Geom.line [0, 1000]⟩] [] Mode.line true
        ⟨PyVal.str "A", PyVal.num 3, PyVal.num 3⟩
      = Outcome.err beginEqEndMsg
    ∧ resolveRecord [⟨PyVal.str "A", Geom.line [0, 1000]⟩] [] Mode.line true
        ⟨PyVal.str "A", PyVal.num 3, PyVal.num 2⟩
      = Outcome.err (endLtBeginMsg 2 3) := by
  constructor
  · exact (claim2_degenerate_checks [⟨PyVal.str "A", Geom.line [0, 1000]⟩] []
      Mode.line true ⟨PyVal.str "A", PyVal.num 3, PyVal.num 3⟩ 0 3 3
      rfl (by decide) rfl rfl rfl rfl).1 rfl
  · exact (claim2_degenerate_checks [⟨PyVal.str "A", Geom.line [0, 1000]⟩] []
      Mode.line true ⟨PyVal.str "A", PyVal.num 3, PyVal.num 2⟩ 0 3 2
      rfl (by decide) rfl rfl rfl rfl).2
      (by norm_num [bmMetersOf, unit_factor])

/-- Claim C5: in point mode, when every candidate rejects the projection
distance, the resolver falls back to the last candidate: if the uncorrected
offset distance exceeds that geometry length the point is clamped to the
endpoint and accepted, and otherwise the record fails with the measure out
of range message. -/
theorem claim5_point_fallback (routes2 : List RouteFeature)
    (ref : List (String × RefExtent)) (mode : Mode) (emCol : Bool)
    (r : InputRecord) (m b : ℚ)
    (hE : extentStep ref (ridOf r) mode emCol r = Except.ok m)
    (hbm : floatOf r.bm = some b)
    (hpt : isPointOf mode emCol r.em = true)
    (hne : matchesOf routes2 (ridOf r) ≠ [])
    (hall : ∀ f ∈ matchesOf routes2 (ridOf r),
      ¬ bmMetersOf m b ≤ lengthG (normalizeGeom f.geom)) :
    ((b - m) * unit_factor
        > lengthG ((matchesOf routes2 (ridOf r)).getLastD defaultFeature).geom →
      resolveRecord routes2 ref mode emCol r
        = Outcome.pt (Geom.point (interpolateG
            ((matchesOf routes2 (ridOf r)).getLastD defaultFeature).geom
            (lengthG ((matchesOf routes2 (ridOf r)).getLastD defaultFeature).geom))))
    ∧ (¬ (b - m) * unit_factor
        > lengthG ((matchesOf routes2 (ridOf r)).getLastD defaultFeature).geom →
      resolveRecord routes2 ref mode emCol r = Outcome.err outOfRangeMsg) := by
  have hloop : candLoop true b m emCol r (matchesOf routes2 (ridOf r))
      = LoopRes.exhausted := by
    apply candLoop_of_all_skip
    intro f hf
    simp only [stepCand, if_true]
    rw [if_neg (hall f hf)]
  constructor
  · intro hgt
    rw [resolveRecord_ok routes2 ref mode emCol r m hE]
    simp only [resolveAfterExtent, if_neg hne, hbm]
    simp only [resolveLoopPhase, hpt, hloop, if_true]
    rw [if_pos hgt]
  · intro hng
    rw [resolveRecord_ok routes2 ref mode emCol r m hE]
    simp only [resolveAfterExtent, if_neg hne, hbm]
    simp only [resolveLoopPhase, hpt, hloop, if_true]
    rw [if_neg hng]

/-- Claim C5 witness: begin measure 1 (1609.34 distance units) on a single
candidate of length 100 exceeds every candidate, so the point clamps to the
last candidate endpoint and the record is accepted. -/
theorem claim5_witness :
    resolveRecord [⟨PyVal.str "A", Geom.line [0, 100]⟩] [] Mode.point false
        ⟨PyVal.str "A", PyVal.num 1, PyVal.na⟩
      = Outcome.pt (Geom.point (interpolateG (Geom.line [0, 100])
          (lengthG (Geom.line [0, 100])))) := by
  have hM : matchesOf [⟨PyVal.str "A", Geom.line [0, 100]⟩]
      (ridOf ⟨PyVal.str "A", PyVal.num 1, PyVal.na⟩)
      = [⟨PyVal.str "A", Geom.line [0, 100]⟩] := by decide
  have h := (claim5_point_fallback [⟨PyVal.str "A", Geom.line [0, 100]⟩] []
    Mode.point false ⟨PyVal.str "A", PyVal.num 1, PyVal.na⟩ 0 1
    rfl rfl rfl (by decide)
    (by
      intro f hf
      rw [hM] at hf
      simp only [List.mem_singleton] at hf
      subst hf
      norm_num [bmMetersOf, unit_factor, normalizeGeom, lengthG, pathLength])).1
    (by
      rw [hM]
      show (1 - 0 : ℚ) * unit_factor > lengthG (Geom.line [0, 100])
      norm_num [lengthG, pathLength, unit_factor])
  exact h

/-- Rejection of the direct sub line extraction when the begin distance is
at or beyond the candidate length: the clamped distances coincide and the
substring collapses to a point, which the acceptance conditions refuse. -/
theorem directSub_none_of_beyond (g : Geom) (a b : ℚ)
    (hA : lengthG g ≤ a) (hab : a < b) :
    directSub g a b = none := by
  cases g with
  | point x => rfl
  | multi parts => rfl
  | line pts =>
    have h0 : (0 : ℚ) ≤ pathLength pts := pathLength_nonneg pts
    have hA' : pathLength pts ≤ a := hA
    have hB' : pathLength pts ≤ b := le_of_lt (lt_of_le_of_lt hA' hab)
    simp only [directSub, substringG]
    rw [min_eq_right hA', min_eq_right hB', max_eq_right h0]
    simp [isLineTypeG]

/-- One candidate whose length plus the 50 unit slack is at most the begin
distance is skipped in line mode: the direct extraction collapses and the
resampling guard refuses to fire. -/
theorem stepCand_skip_of_far (b m e : ℚ) (emCol : Bool) (r : InputRecord)
    (f : RouteFeature)
    (hem : emCol = true) (hev : r.em = PyVal.num e)
    (hlt : bmMetersOf m b < bmMetersOf m e)
    (hfar : lengthG (normalizeGeom f.geom) + 50 ≤ bmMetersOf m b) :
    stepCand false b m emCol r f = StepRes.skip := by
  have hlen : lengthG (normalizeGeom f.geom) ≤ bmMetersOf m b := by linarith
  have hnot : ¬ bmMetersOf m e ≤ bmMetersOf m b := not_le.mpr hlt
  have hds := directSub_none_of_beyond (normalizeGeom f.geom) (bmMetersOf m b)
    (bmMetersOf m e) hlen hlt
  have hrs : ¬ bmMetersOf m b < lengthG (normalizeGeom f.geom) + 50 :=
    not_lt.mpr hfar
  simp [stepCand, hem, hev, floatOf, ge_iff_le, hnot, hds, resampleStep, hrs]

/-- Claim C6: in line mode, when the begin distance is at or beyond every
candidate length plus 50 distance units, the resampling reconstruction is
never attempted and the record fails with the gap message. -/
theorem claim6_resample_guard (routes2 : List RouteFeature)
    (ref : List (String × RefExtent)) (mode : Mode) (emCol : Bool)
    (r : InputRecord) (m b e : ℚ)
    (hE : extentStep ref (ridOf r) mode emCol r = Except.ok m)
    (hbm : floatOf r.bm = some b)
    (hpt : isPointOf mode emCol r.em = false)
    (hne : matchesOf routes2 (ridOf r) ≠ [])
    (hem : emCol = true) (hev : r.em = PyVal.num e)
    (hlt : bmMetersOf m b < bmMetersOf m e)
    (hall : ∀ f ∈ matchesOf routes2 (ridOf r),
      lengthG (normalizeGeom f.geom) + 50 ≤ bmMetersOf m b) :
    resolveRecord routes2 ref mode emCol r = Outcome.err gapMsg := by
  have hloop : candLoop false b m emCol r (matchesOf routes2 (ridOf r))
      = LoopRes.exhausted := by
    apply candLoop_of_all_skip
    intro f hf
    exact stepCand_skip_of_far b m e emCol r f hem hev hlt (hall f hf)
  rw [resolveRecord_ok routes2 ref mode emCol r m hE]
  simp only [resolveAfterExtent, if_neg hne, hbm]
  simp only [resolveLoopPhase, hpt, hloop]
  simp

/-- Claim C6 witness: begin measure 1 (1609.34 units) against a single
candidate of length 100 is beyond length plus 50, so the line record fails
with the gap message. -/
theorem claim6_witness :
    resolveRecord [⟨PyVal.str "A", Geom.line [0, 100]⟩] [] Mode.line true
        ⟨PyVal.str "A", PyVal.num 1, PyVal.num 2⟩
      = Outcome.err gapMsg := by
  have hM : matchesOf [⟨PyVal.str "A", Geom.line [0, 100]⟩]
      (ridOf ⟨PyVal.str "A", PyVal.num 1, PyVal.num 2⟩)
      = [⟨PyVal.str "A", Geom.line [0, 100]⟩] := by decide
  exact claim6_resample_guard [⟨PyVal.str "A", Geom.line [0, 100]⟩] [] Mode.line
    true ⟨PyVal.str "A", PyVal.num 1, PyVal.num 2⟩ 0 1 2
    rfl rfl rfl (by decide) rfl rfl
    (by norm_num [bmMetersOf, unit_factor])
    (by
      intro f hf
      rw [hM] at hf
      simp only [List.mem_singleton] at hf
      subst hf
      norm_num [bmMetersOf, unit_factor, normalizeGeom, lengthG, pathLength])
